import Mathlib

/-!
Verification development for the experiment-sizing and LTV-projection code of
the game-analytics dashboard repository.

The sizing calculators live in
`src/dashboard/tabs/abtest/calculators/ab_test_calculator.py`,
`src/dashboard/tabs/abtest/calculators/multiple_treatment_calculator.py` and
`src/dashboard/tabs/abtest/sample_size_calculator.py`; the retention and LTV
code lives in `src/dashboard/tabs/ltv/data_processing.py`.

Conventions of the embedding:
* Python floats are modelled as `ℚ` in the control-flow embeddings and as `ℝ`
  where the source computes transcendental functions (arcsin, sqrt, exp, rpow).
* Python division raises `ZeroDivisionError` on a zero denominator; it is
  modelled by `pydiv`, and each `try ... except` block of the source becomes an
  `Except String` computation whose error branch is the `st.error` display.
* The calls into the external `statsmodels` library
  (`NormalIndPower().solve_power`, `TTestIndPower().solve_power`,
  `proportion_effectsize`) are not code of this repository; the flow embeddings
  take them as function arguments (`effP`, `solveNormal`, `solveT`), and the
  formulas the library documents are embedded separately where a claim needs
  them.
-/

namespace Spec2Proof

/-- Python division of two floats: raises `ZeroDivisionError` when the
denominator is zero, otherwise returns the exact quotient. -/
def pydiv (a b : ℚ) : Except String ℚ :=
  if b = 0 then Except.error "ZeroDivisionError" else Except.ok (a / b)

/-- The metric-dependent session-state parameters read by the results
renderers: for a Z-test (proportion) the stored `current_rate` and `mde`; for a
t-test (continuous) the stored `cohens_d` (computed upstream in the metric
parameters section as `effect_size_input / std_dev`). -/
inductive MetricParams where
  | proportion (currentRate mde : ℚ)
  | continuous (cohensD : ℚ)
deriving DecidableEq

/-- Session-state parameters of the single-treatment calculators
(`ab_params`). -/
structure ABParams where
  metric : MetricParams
  alpha : ℚ
  power : ℚ
  treatmentSize : ℚ
  dailyUsers : ℚ
deriving DecidableEq

/-- The four metrics displayed by a single-treatment results pass. -/
structure SizingResult where
  control : ℤ
  treatment : ℤ
  total : ℤ
  duration : ℤ
deriving DecidableEq

/-- Outcome of one render pass: the displayed results, or the message the
blanket `except Exception` handler shows via `st.error`. -/
inductive Outcome where
  | results (r : SizingResult)
  | errorShown (msg : String)
deriving DecidableEq

/-- Whether a render pass displayed results (rather than an error). -/
def Outcome.isResults : Outcome → Bool
  | .results _ => true
  | .errorShown _ => false

/-- The duration an outcome displays, if it displays results at all. -/
def Outcome.durationOf : Outcome → Option ℤ
  | .results r => some r.duration
  | .errorShown _ => none

/-- Embedding of `render_ab_test_results`
(`calculators/ab_test_calculator.py`, lines 186-300).  `effP p2 p1` stands for
`statsmodels.stats.proportion.proportion_effectsize(p2, p1)`; `solveNormal`
and `solveT` stand for `NormalIndPower().solve_power` and
`TTestIndPower().solve_power` with arguments (effect size, power, alpha,
ratio).  The whole body runs inside `try ... except Exception`, so any raised
`ZeroDivisionError` is converted into an error display. -/
def render_ab_test_results (effP : ℚ → ℚ → ℚ)
    (solveNormal solveT : ℚ → ℚ → ℚ → ℚ → ℚ) (p : ABParams) : Outcome :=
  let body : Except String SizingResult := do
    let sizes ←
      match p.metric with
      | .proportion currentRate mde => do
          let effectSize := effP (currentRate + mde) currentRate
          let allocationRatio ← pydiv p.treatmentSize (1 - p.treatmentSize)
          let nRaw := solveNormal effectSize p.power p.alpha allocationRatio
          let sampleSizeControl : ℤ := ⌈nRaw⌉
          pure (sampleSizeControl,
            (⌈(sampleSizeControl : ℚ) * allocationRatio⌉ : ℤ))
      | .continuous cohensD => do
          let allocationRatio ← pydiv p.treatmentSize (1 - p.treatmentSize)
          let nRaw := solveT cohensD p.power p.alpha allocationRatio
          let sampleSizeControl : ℤ := ⌈nRaw⌉
          pure (sampleSizeControl,
            (⌈(sampleSizeControl : ℚ) * allocationRatio⌉ : ℤ))
    let sampleSizeControl := sizes.1
    let sampleSizeTreatment := sizes.2
    let totalSample := sampleSizeControl + sampleSizeTreatment
    let controlUsersPerDay := p.dailyUsers * (1 - p.treatmentSize)
    let treatmentUsersPerDay := p.dailyUsers * p.treatmentSize
    let daysForControl ← pydiv (sampleSizeControl : ℚ) controlUsersPerDay
    let daysForTreatment ← pydiv (sampleSizeTreatment : ℚ) treatmentUsersPerDay
    let duration := max ⌈daysForControl⌉ ⌈daysForTreatment⌉
    pure ⟨sampleSizeControl, sampleSizeTreatment, totalSample, duration⟩
  match body with
  | .ok r => .results r
  | .error e => .errorShown e

/-- Embedding of the left column of `render_calculation_results_section`
(`sample_size_calculator.py`, lines 398-487).  The sample sizes are computed
exactly as in `render_ab_test_results` (with `effP` standing for this
variant's proportion effect size), but the displayed duration is
`ceil(total_sample / daily_users)`. -/
def render_calculation_results_left (effP : ℚ → ℚ → ℚ)
    (solveNormal solveT : ℚ → ℚ → ℚ → ℚ → ℚ) (p : ABParams) : Outcome :=
  let body : Except String SizingResult := do
    let sizes ←
      match p.metric with
      | .proportion currentRate mde => do
          let effectSize := effP (currentRate + mde) currentRate
          let allocationRatio ← pydiv p.treatmentSize (1 - p.treatmentSize)
          let nRaw := solveNormal effectSize p.power p.alpha allocationRatio
          let sampleSizeControl : ℤ := ⌈nRaw⌉
          pure (sampleSizeControl,
            (⌈(sampleSizeControl : ℚ) * allocationRatio⌉ : ℤ))
      | .continuous cohensD => do
          let allocationRatio ← pydiv p.treatmentSize (1 - p.treatmentSize)
          let nRaw := solveT cohensD p.power p.alpha allocationRatio
          let sampleSizeControl : ℤ := ⌈nRaw⌉
          pure (sampleSizeControl,
            (⌈(sampleSizeControl : ℚ) * allocationRatio⌉ : ℤ))
    let sampleSizeControl := sizes.1
    let sampleSizeTreatment := sizes.2
    let totalSample := sampleSizeControl + sampleSizeTreatment
    let durationRaw ← pydiv (totalSample : ℚ) p.dailyUsers
    pure ⟨sampleSizeControl, sampleSizeTreatment, totalSample, ⌈durationRaw⌉⟩
  match body with
  | .ok r => .results r
  | .error e => .errorShown e

/-- The multiple-comparison correction selected in the multi-treatment
calculator: the selectbox offers "Bonferroni Method" and "False Discovery Rate
(Benjamini-Hochberg)". -/
inductive CorrectionMethod where
  | bonferroni
  | fdr
deriving DecidableEq

/-- Session-state parameters of the multi-treatment calculator
(`multi_params`). -/
structure MultiParams where
  metric : MetricParams
  alpha : ℚ
  power : ℚ
  numTreatments : ℕ
  correctionMethod : CorrectionMethod
  treatmentAllocation : ℚ
  dailyUsers : ℚ
deriving DecidableEq

/-- The metrics displayed by a multi-treatment results pass. -/
structure MultiResult where
  control : ℤ
  perTreatment : ℤ
  total : ℤ
  adjustedAlpha : ℚ
  duration : ℤ
deriving DecidableEq

/-- Outcome of one multi-treatment render pass. -/
inductive MultiOutcome where
  | results (r : MultiResult)
  | errorShown (msg : String)
deriving DecidableEq

/-- The adjusted alpha a multi-treatment outcome displays, if any. -/
def MultiOutcome.adjustedAlphaOf : MultiOutcome → Option ℚ
  | .results r => some r.adjustedAlpha
  | .errorShown _ => none

/-- The control size a multi-treatment outcome displays, if any. -/
def MultiOutcome.controlOf : MultiOutcome → Option ℤ
  | .results r => some r.control
  | .errorShown _ => none

/-- Embedding of lines 227-235 of `multiple_treatment_calculator.py`: under
"Bonferroni" the adjusted alpha is `alpha / num_treatments`; under the FDR
method the original alpha is kept (the source comment: FDR is applied
post-hoc, so sample size uses the original alpha).  `num_treatments` comes
from a slider ranging over 2..5, so the Bonferroni division never divides by
zero there (total `ℚ` division is used for it). -/
def alpha_adjusted (correction : CorrectionMethod) (alpha : ℚ)
    (numTreatments : ℕ) : ℚ :=
  match correction with
  | .bonferroni => alpha / (numTreatments : ℚ)
  | .fdr => alpha

/-- Embedding of `render_multiple_treatment_results`
(`calculators/multiple_treatment_calculator.py`, lines 214-360).  The
external power solvers are abstracted as in `render_ab_test_results`; the
adjusted alpha is both passed to the solver and displayed in the results (the
source shows it in its fourth metric column). -/
def render_multiple_treatment_results (effP : ℚ → ℚ → ℚ)
    (solveNormal solveT : ℚ → ℚ → ℚ → ℚ → ℚ) (p : MultiParams) : MultiOutcome :=
  let body : Except String MultiResult := do
    let alphaAdjusted := alpha_adjusted p.correctionMethod p.alpha p.numTreatments
    let sizes ←
      match p.metric with
      | .proportion currentRate mde => do
          let effectSize := effP (currentRate + mde) currentRate
          let treatmentPerGroup ← pydiv p.treatmentAllocation (p.numTreatments : ℚ)
          let controlAllocation := 1 - p.treatmentAllocation
          let allocationRatio ← pydiv treatmentPerGroup controlAllocation
          let nRaw := solveNormal effectSize p.power alphaAdjusted allocationRatio
          let sampleSizeControl : ℤ := ⌈nRaw⌉
          pure (sampleSizeControl,
            (⌈(sampleSizeControl : ℚ) * allocationRatio⌉ : ℤ))
      | .continuous cohensD => do
          let treatmentPerGroup ← pydiv p.treatmentAllocation (p.numTreatments : ℚ)
          let controlAllocation := 1 - p.treatmentAllocation
          let allocationRatio ← pydiv treatmentPerGroup controlAllocation
          let nRaw := solveT cohensD p.power alphaAdjusted allocationRatio
          let sampleSizeControl : ℤ := ⌈nRaw⌉
          pure (sampleSizeControl,
            (⌈(sampleSizeControl : ℚ) * allocationRatio⌉ : ℤ))
    let sampleSizeControl := sizes.1
    let sampleSizePerTreatment := sizes.2
    let totalSample :=
      sampleSizeControl + sampleSizePerTreatment * (p.numTreatments : ℤ)
    let controlUsersPerDay := p.dailyUsers * (1 - p.treatmentAllocation)
    let perGroupShare ← pydiv p.treatmentAllocation (p.numTreatments : ℚ)
    let treatmentUsersPerDayPerGroup := p.dailyUsers * perGroupShare
    let daysForControl ← pydiv (sampleSizeControl : ℚ) controlUsersPerDay
    let daysForTreatment ←
      pydiv (sampleSizePerTreatment : ℚ) treatmentUsersPerDayPerGroup
    let duration := max ⌈daysForControl⌉ ⌈daysForTreatment⌉
    pure ⟨sampleSizeControl, sampleSizePerTreatment, totalSample,
      alphaAdjusted, duration⟩
  match body with
  | .ok r => .results r
  | .error e => .errorShown e

/-- Embedding of the right column of `render_calculation_results_section`
(`sample_size_calculator.py`, lines 574-774): the multi-treatment variant with
no correction selector; it always applies the Bonferroni division
`alpha / num_treatments` (line 586) and displays `ceil(total_sample /
daily_users)` as the duration. -/
def render_calculation_results_right (effP : ℚ → ℚ → ℚ)
    (solveNormal solveT : ℚ → ℚ → ℚ → ℚ → ℚ) (metric : MetricParams)
    (alpha power : ℚ) (numTreatments : ℕ) (treatmentAllocation dailyUsers : ℚ) :
    MultiOutcome :=
  let body : Except String MultiResult := do
    let alphaAdjusted := alpha / (numTreatments : ℚ)
    let sizes ←
      match metric with
      | .proportion currentRate mde => do
          let effectSize := effP (currentRate + mde) currentRate
          let treatmentPerGroup ← pydiv treatmentAllocation (numTreatments : ℚ)
          let controlAllocation := 1 - treatmentAllocation
          let allocationRatio ← pydiv treatmentPerGroup controlAllocation
          let nRaw := solveNormal effectSize power alphaAdjusted allocationRatio
          let sampleSizeControl : ℤ := ⌈nRaw⌉
          pure (sampleSizeControl,
            (⌈(sampleSizeControl : ℚ) * allocationRatio⌉ : ℤ))
      | .continuous cohensD => do
          let treatmentPerGroup ← pydiv treatmentAllocation (numTreatments : ℚ)
          let controlAllocation := 1 - treatmentAllocation
          let allocationRatio ← pydiv treatmentPerGroup controlAllocation
          let nRaw := solveT cohensD power alphaAdjusted allocationRatio
          let sampleSizeControl : ℤ := ⌈nRaw⌉
          pure (sampleSizeControl,
            (⌈(sampleSizeControl : ℚ) * allocationRatio⌉ : ℤ))
    let sampleSizeControl := sizes.1
    let sampleSizePerTreatment := sizes.2
    let totalSample :=
      sampleSizeControl + sampleSizePerTreatment * (numTreatments : ℤ)
    let durationRaw ← pydiv (totalSample : ℚ) dailyUsers
    pure ⟨sampleSizeControl, sampleSizePerTreatment, totalSample,
      alphaAdjusted, ⌈durationRaw⌉⟩
  match body with
  | .ok r => .results r
  | .error e => .errorShown e

/-- Helper: the integer ceiling of a rational, evaluated from its bounds. -/
theorem ceil_eval {q : ℚ} {z : ℤ} (h1 : (z : ℚ) - 1 < q) (h2 : q ≤ (z : ℚ)) :
    (⌈q⌉ : ℤ) = z :=
  Int.ceil_eq_iff.mpr ⟨h1, h2⟩

/-- The duration formula the spec states for a single-treatment design (the
slower-filling arm determines the duration); written from the spec's words to
be compared with what each calculator variant reports. -/
def spec_duration (controlSize treatmentSize : ℤ)
    (dailyTraffic treatmentShare : ℚ) : ℤ :=
  max ⌈(controlSize : ℚ) / (dailyTraffic * (1 - treatmentShare))⌉
    ⌈(treatmentSize : ℚ) / (dailyTraffic * treatmentShare)⌉

/-- C2 (amended): the sizing code performs no up-front validation and defines
no `InvalidParameterError`.  With `baseline = 0` and an interior treatment
share the Proportion computation runs to completion and reports sizes, for
every effect-size function and solver; `treatment_share = 1` or `0` instead
hits a `ZeroDivisionError` inside the computation, which the blanket
`except` handler catches and shows after the fact. -/
theorem c2_no_validation_of_boundaries (effP : ℚ → ℚ → ℚ)
    (solveNormal solveT : ℚ → ℚ → ℚ → ℚ → ℚ) (m a pw d : ℚ) (hd : d ≠ 0) :
    (render_ab_test_results effP solveNormal solveT
        ⟨.proportion 0 m, a, pw, 1/2, d⟩).isResults = true ∧
    render_ab_test_results effP solveNormal solveT
        ⟨.proportion 0 m, a, pw, 1, d⟩ = .errorShown "ZeroDivisionError" ∧
    render_ab_test_results effP solveNormal solveT
        ⟨.proportion 0 m, a, pw, 0, d⟩ = .errorShown "ZeroDivisionError" := by
  refine ⟨?_, ?_, ?_⟩
  · simp only [render_ab_test_results, pydiv]
    norm_num [hd, Outcome.isResults, bind, Except.bind, Except.map, pure, Except.pure]
  · simp only [render_ab_test_results, pydiv]
    norm_num [bind, Except.bind, Except.map, pure, Except.pure]
  · simp only [render_ab_test_results, pydiv]
    norm_num [hd, bind, Except.bind, Except.map, pure, Except.pure]

/-- C2 counterexample: with `baseline = 0` (a Proportion-metric boundary the
claim says must raise `InvalidParameterError` before any computation) the
calculator completes normally and displays sample sizes; shown at a concrete
instantiation of the external solver. -/
theorem c2_counterexample :
    render_ab_test_results (fun _ _ => 1) (fun _ _ _ _ => 100) (fun _ _ _ _ => 0)
      ⟨.proportion 0 (1/50), 1/20, 4/5, 1/2, 1000⟩ =
      .results ⟨100, 100, 200, 1⟩ := by
  have h1 : (⌈(100 : ℚ)⌉ : ℤ) = 100 := ceil_eval (by norm_num) (by norm_num)
  have h2 : (⌈(1 : ℚ) / 5⌉ : ℤ) = 1 := ceil_eval (by norm_num) (by norm_num)
  simp only [render_ab_test_results, pydiv]
  norm_num [bind, Except.bind, Except.map, pure, Except.pure, h1, h2]

/-- C2 witness: the amended statement instantiated at concrete parameters. -/
theorem c2_witness :
    (1000 : ℚ) ≠ 0 ∧
    ((render_ab_test_results (fun _ _ => 1) (fun _ _ _ _ => 100)
          (fun _ _ _ _ => 0)
        ⟨.proportion 0 (1/50), 1/20, 4/5, 1/2, 1000⟩).isResults = true ∧
    render_ab_test_results (fun _ _ => 1) (fun _ _ _ _ => 100) (fun _ _ _ _ => 0)
        ⟨.proportion 0 (1/50), 1/20, 4/5, 1, 1000⟩ =
        .errorShown "ZeroDivisionError" ∧
    render_ab_test_results (fun _ _ => 1) (fun _ _ _ _ => 100) (fun _ _ _ _ => 0)
        ⟨.proportion 0 (1/50), 1/20, 4/5, 0, 1000⟩ =
        .errorShown "ZeroDivisionError") :=
  ⟨by norm_num,
    c2_no_validation_of_boundaries (fun _ _ => 1) (fun _ _ _ _ => 100)
      (fun _ _ _ _ => 0) (1/50) (1/20) (4/5) 1000 (by norm_num)⟩

/-- C3 (amended): in `render_ab_test_results` the reported duration equals the
spec's slower-filling-arm formula applied to the reported sizes, for both
metric kinds; the `sample_size_calculator` variant instead reports
`ceil(total_sample / daily_users)`. -/
theorem c3_duration_formulas (effP : ℚ → ℚ → ℚ)
    (sN sT : ℚ → ℚ → ℚ → ℚ → ℚ) (metric : MetricParams) (a pw ts d : ℚ)
    (h2 : d * (1 - ts) ≠ 0) (h3 : d * ts ≠ 0) :
    (∃ res, render_ab_test_results effP sN sT ⟨metric, a, pw, ts, d⟩ =
        .results res ∧
        res.duration = spec_duration res.control res.treatment d ts) ∧
    (∃ res, render_calculation_results_left effP sN sT ⟨metric, a, pw, ts, d⟩ =
        .results res ∧
        res.duration = ⌈(res.total : ℚ) / d⌉) := by
  have hts : (1 : ℚ) - ts ≠ 0 := right_ne_zero_of_mul h2
  have hd : d ≠ 0 := left_ne_zero_of_mul h2
  constructor
  · cases metric with
    | proportion r m =>
        simp only [render_ab_test_results, pydiv, if_neg hts, if_neg h2,
          if_neg h3, bind, Except.bind, pure, Except.pure]
        exact ⟨_, rfl, rfl⟩
    | continuous cohensD =>
        simp only [render_ab_test_results, pydiv, if_neg hts, if_neg h2,
          if_neg h3, bind, Except.bind, pure, Except.pure]
        exact ⟨_, rfl, rfl⟩
  · cases metric with
    | proportion r m =>
        simp only [render_calculation_results_left, pydiv, if_neg hts,
          if_neg hd, bind, Except.bind, pure, Except.pure]
        exact ⟨_, rfl, rfl⟩
    | continuous cohensD =>
        simp only [render_calculation_results_left, pydiv, if_neg hts,
          if_neg hd, bind, Except.bind, pure, Except.pure]
        exact ⟨_, rfl, rfl⟩

/-- C3 counterexample: a sizing calculation (control 91, treatment 17,
daily traffic 110, treatment share 15%) for which the
`sample_size_calculator` variant reports a 1-day duration while the spec's
slower-filling-arm formula gives 2 days. -/
theorem c3_counterexample :
    render_calculation_results_left (fun _ _ => 1) (fun _ _ _ _ => 91)
        (fun _ _ _ _ => 0) ⟨.proportion (3/20) (1/50), 1/20, 4/5, 3/20, 110⟩ =
      .results ⟨91, 17, 108, 1⟩ ∧
    spec_duration 91 17 110 (3/20) = 2 := by
  have h273 : (⌈(273 : ℚ) / 17⌉ : ℤ) = 17 := ceil_eval (by norm_num) (by norm_num)
  have h5455 : (⌈(54 : ℚ) / 55⌉ : ℤ) = 1 := ceil_eval (by norm_num) (by norm_num)
  have ha : (⌈(182 : ℚ) / 187⌉ : ℤ) = 1 := ceil_eval (by norm_num) (by norm_num)
  have hb : (⌈(34 : ℚ) / 33⌉ : ℤ) = 2 := ceil_eval (by norm_num) (by norm_num)
  constructor
  · simp only [render_calculation_results_left, pydiv]
    norm_num [bind, Except.bind, Except.map, pure, Except.pure, h273]
    norm_num [h5455]
  · simp only [spec_duration]
    norm_num [ha, hb]

/-- C3 witness: the amended statement instantiated at concrete parameters. -/
theorem c3_witness :
    ((1000 : ℚ) * (1 - 1/2) ≠ 0 ∧ (1000 : ℚ) * (1/2) ≠ 0) ∧
    ((∃ res, render_ab_test_results (fun _ _ => 1) (fun _ _ _ _ => 100)
        (fun _ _ _ _ => 0) ⟨.proportion (3/20) (1/50), 1/20, 4/5, 1/2, 1000⟩ =
        .results res ∧
        res.duration = spec_duration res.control res.treatment 1000 (1/2)) ∧
    (∃ res, render_calculation_results_left (fun _ _ => 1) (fun _ _ _ _ => 100)
        (fun _ _ _ _ => 0) ⟨.proportion (3/20) (1/50), 1/20, 4/5, 1/2, 1000⟩ =
        .results res ∧
        res.duration = ⌈(res.total : ℚ) / 1000⌉)) :=
  ⟨⟨by norm_num, by norm_num⟩,
    c3_duration_formulas (fun _ _ => 1) (fun _ _ _ _ => 100) (fun _ _ _ _ => 0)
      (.proportion (3/20) (1/50)) (1/20) (4/5) (1/2) 1000
      (by norm_num) (by norm_num)⟩

/-- C4: in the multi-treatment calculator the alpha passed to the power
inversion (and displayed as "Adjusted Alpha") is `alpha / num_treatments`
under Bonferroni and the unchanged `alpha` under FDR; the
`sample_size_calculator` multi-arm variant, which offers no correction
choice, always uses the Bonferroni division. -/
theorem c4_correction_alpha (effP : ℚ → ℚ → ℚ)
    (sN sT : ℚ → ℚ → ℚ → ℚ → ℚ) (metric : MetricParams) (a pw : ℚ) (num : ℕ)
    (ta d : ℚ) (hnum : (num : ℚ) ≠ 0) (hca : 1 - ta ≠ 0)
    (hd1 : d * (1 - ta) ≠ 0) (hd2 : d * (ta / (num : ℚ)) ≠ 0) :
    (render_multiple_treatment_results effP sN sT
        ⟨metric, a, pw, num, .bonferroni, ta, d⟩).adjustedAlphaOf =
      some (a / (num : ℚ)) ∧
    (render_multiple_treatment_results effP sN sT
        ⟨metric, a, pw, num, .fdr, ta, d⟩).adjustedAlphaOf = some a ∧
    alpha_adjusted .bonferroni a num = a / (num : ℚ) ∧
    alpha_adjusted .fdr a num = a ∧
    (render_calculation_results_right effP sN sT metric a pw num ta
        d).adjustedAlphaOf = some (a / (num : ℚ)) := by
  have hd : d ≠ 0 := left_ne_zero_of_mul hd1
  refine ⟨?_, ?_, rfl, rfl, ?_⟩
  · cases metric with
    | proportion r m =>
        simp only [render_multiple_treatment_results, alpha_adjusted, pydiv,
          if_neg hnum, if_neg hca, if_neg hd1, if_neg hd2, bind, Except.bind,
          pure, Except.pure, MultiOutcome.adjustedAlphaOf]
    | continuous cohensD =>
        simp only [render_multiple_treatment_results, alpha_adjusted, pydiv,
          if_neg hnum, if_neg hca, if_neg hd1, if_neg hd2, bind, Except.bind,
          pure, Except.pure, MultiOutcome.adjustedAlphaOf]
  · cases metric with
    | proportion r m =>
        simp only [render_multiple_treatment_results, alpha_adjusted, pydiv,
          if_neg hnum, if_neg hca, if_neg hd1, if_neg hd2, bind, Except.bind,
          pure, Except.pure, MultiOutcome.adjustedAlphaOf]
    | continuous cohensD =>
        simp only [render_multiple_treatment_results, alpha_adjusted, pydiv,
          if_neg hnum, if_neg hca, if_neg hd1, if_neg hd2, bind, Except.bind,
          pure, Except.pure, MultiOutcome.adjustedAlphaOf]
  · cases metric with
    | proportion r m =>
        simp only [render_calculation_results_right, pydiv, if_neg hnum,
          if_neg hca, if_neg hd, bind, Except.bind, pure,
          Except.pure, MultiOutcome.adjustedAlphaOf]
    | continuous cohensD =>
        simp only [render_calculation_results_right, pydiv, if_neg hnum,
          if_neg hca, if_neg hd, bind, Except.bind, pure,
          Except.pure, MultiOutcome.adjustedAlphaOf]

/-- C4 witness: the theorem instantiated at concrete parameters. -/
theorem c4_witness :
    ((3 : ℚ) ≠ 0 ∧ (1 : ℚ) - 3/4 ≠ 0 ∧ (1000 : ℚ) * (1 - 3/4) ≠ 0 ∧
      (1000 : ℚ) * ((3/4) / 3) ≠ 0) ∧
    ((render_multiple_treatment_results (fun _ _ => 1) (fun _ _ _ _ => 50)
        (fun _ _ _ _ => 0)
        ⟨.proportion (3/20) (1/50), 1/20, 4/5, 3, .bonferroni, 3/4,
          1000⟩).adjustedAlphaOf = some ((1 : ℚ)/20 / 3) ∧
    (render_multiple_treatment_results (fun _ _ => 1) (fun _ _ _ _ => 50)
        (fun _ _ _ _ => 0)
        ⟨.proportion (3/20) (1/50), 1/20, 4/5, 3, .fdr, 3/4,
          1000⟩).adjustedAlphaOf = some (1/20) ∧
    alpha_adjusted .bonferroni (1/20) 3 = (1 : ℚ)/20 / 3 ∧
    alpha_adjusted .fdr (1/20) 3 = (1 : ℚ)/20 ∧
    (render_calculation_results_right (fun _ _ => 1) (fun _ _ _ _ => 50)
        (fun _ _ _ _ => 0) (.proportion (3/20) (1/50)) (1/20) (4/5) 3 (3/4)
        1000).adjustedAlphaOf = some ((1 : ℚ)/20 / 3)) :=
  ⟨⟨by norm_num, by norm_num, by norm_num, by norm_num⟩, by
    have h := c4_correction_alpha (fun _ _ => 1) (fun _ _ _ _ => 50)
      (fun _ _ _ _ => 0) (.proportion (3/20) (1/50)) (1/20) (4/5) 3 (3/4) 1000
      (by norm_num) (by norm_num) (by norm_num) (by norm_num)
    norm_num at h ⊢
    exact h⟩

/-- Bounded upward search: the first candidate in `start, start + 1, ...`
(at most `fuel` of them) satisfying `p`. -/
def findFrom (p : ℕ → Prop) [DecidablePred p] : ℕ → ℕ → Option ℕ
  | _, 0 => none
  | start, fuel + 1 =>
    if p start then some start else findFrom p (start + 1) fuel

/-- Modelled from the spec: `solve_required_n` is the contract of the external
`statsmodels` `solve_power` call (that code is not in the repository).  The
spec describes it as inverting the power function: the minimum control-group
size `n` such that the achieved power at `n` reaches the target, `none` when
no size within the search bound does (`NonConvergenceError`).  `achieved` is
the achieved-power function of the design at the alpha under test. -/
def solve_required_n (achieved : ℕ → ℚ) (target : ℚ) (bound : ℕ) : Option ℕ :=
  findFrom (fun n => target ≤ achieved n) 0 (bound + 1)

/-- A found index is at least the start of the search. -/
theorem findFrom_ge (p : ℕ → Prop) [DecidablePred p] (fuel : ℕ) :
    ∀ start a, findFrom p start fuel = some a → start ≤ a := by
  induction fuel with
  | zero => intro s a h; simp [findFrom] at h
  | succ f ih =>
      intro s a h
      by_cases hp : p s
      · simp [findFrom, hp] at h
        omega
      · simp only [findFrom, if_neg hp] at h
        exact Nat.le_of_succ_le (ih (s + 1) a h)

/-- Weakening the predicate can only move the first hit earlier. -/
theorem findFrom_mono (p q : ℕ → Prop) [DecidablePred p] [DecidablePred q]
    (hpq : ∀ n, p n → q n) (fuel : ℕ) :
    ∀ start a, findFrom p start fuel = some a →
      ∃ b, findFrom q start fuel = some b ∧ b ≤ a := by
  induction fuel with
  | zero => intro s a h; simp [findFrom] at h
  | succ f ih =>
      intro s a h
      by_cases hq : q s
      · exact ⟨s, by simp [findFrom, hq], findFrom_ge p (f + 1) s a h⟩
      · have hp : ¬p s := fun hps => hq (hpq s hps)
        simp only [findFrom, if_neg hp] at h
        obtain ⟨b, hb, hba⟩ := ih (s + 1) a h
        exact ⟨b, by simp only [findFrom, if_neg hq]; exact hb, hba⟩

/-- C5: for a power family that is pointwise monotone in alpha (the
normal-approximation power of a two-sample test grows with alpha), the
control size required at the Bonferroni-adjusted alpha
(`alpha_adjusted .bonferroni`, i.e. `alpha / k`) is at least the control size
required at the FDR alpha (`alpha_adjusted .fdr`, i.e. `alpha` unchanged):
lowering the alpha used in the power inversion never reduces the required
sample size. -/
theorem c5_bonferroni_ge_fdr (P : ℚ → ℕ → ℚ) (a : ℚ) (k : ℕ) (target : ℚ)
    (bound : ℕ)
    (hmono : ∀ n, P (alpha_adjusted .bonferroni a k) n ≤
      P (alpha_adjusted .fdr a k) n)
    (nB : ℕ)
    (hB : solve_required_n (P (alpha_adjusted .bonferroni a k)) target bound =
      some nB) :
    ∃ nF, solve_required_n (P (alpha_adjusted .fdr a k)) target bound =
      some nF ∧ nF ≤ nB :=
  findFrom_mono _ _ (fun n h => le_trans h (hmono n)) (bound + 1) 0 nB hB

/-- C5 witness: the theorem instantiated at a concrete monotone power family
and concrete design parameters. -/
theorem c5_witness :
    (∀ n : ℕ, (fun (al : ℚ) (_ : ℕ) => al) (alpha_adjusted .bonferroni (1/20) 2) n ≤
      (fun (al : ℚ) (_ : ℕ) => al) (alpha_adjusted .fdr (1/20) 2) n) ∧
    (∃ nF, solve_required_n
        ((fun (al : ℚ) (_ : ℕ) => al) (alpha_adjusted .fdr (1/20) 2))
        (1/40) 4 = some nF ∧ nF ≤ 0) :=
  ⟨fun _ => by norm_num [alpha_adjusted],
    c5_bonferroni_ge_fdr (fun al _ => al) (1/20) 2 (1/40) 4
      (fun _ => by norm_num [alpha_adjusted]) 0
      (by norm_num [solve_required_n, findFrom, alpha_adjusted])⟩

/-- The formula of `statsmodels.stats.proportion.proportion_effectsize`
(external library): the arcsine-transformed standardized difference
`2 asin (sqrt prop1) - 2 asin (sqrt prop2)`. -/
noncomputable def proportion_effectsize (prop1 prop2 : ℝ) : ℝ :=
  2 * Real.arcsin (Real.sqrt prop1) - 2 * Real.arcsin (Real.sqrt prop2)

/-- The proportion effect size of `render_ab_test_results`
(`ab_test_calculator.py`, lines 207-210): `proportion_effectsize(p2, p1)` at
`p2 = current_rate + mde`, `p1 = current_rate`. -/
noncomputable def ab_test_effect_size (currentRate mde : ℝ) : ℝ :=
  proportion_effectsize (currentRate + mde) currentRate

/-- The proportion effect size of `render_multiple_treatment_results`
(`multiple_treatment_calculator.py`, lines 244-247). -/
noncomputable def multiple_treatment_effect_size (currentRate mde : ℝ) : ℝ :=
  proportion_effectsize (currentRate + mde) currentRate

/-- The proportion effect size of `render_calculation_results_section`
(`sample_size_calculator.py`, lines 421-426 left column, 595-600 right
column): `diff / sqrt(p1 (1 - p1) + p2 (1 - p2))`. -/
noncomputable def pooled_effect_size (currentRate mde : ℝ) : ℝ :=
  mde / Real.sqrt (currentRate * (1 - currentRate) +
    (currentRate + mde) * (1 - (currentRate + mde)))

/-- Cohen's h as the spec words it: `h = 2 asin (sqrt p2) - 2 asin (sqrt p1)`;
written from the spec to be compared with the source formulas. -/
noncomputable def cohens_h (p1 p2 : ℝ) : ℝ :=
  2 * Real.arcsin (Real.sqrt p2) - 2 * Real.arcsin (Real.sqrt p1)

theorem arcsin_sqrt_quarter : Real.arcsin (Real.sqrt (1/4)) = Real.pi / 6 := by
  have hs : Real.sqrt (1/4 : ℝ) = 1/2 := by
    rw [show (1/4 : ℝ) = (1/2) ^ 2 by norm_num, Real.sqrt_sq (by norm_num)]
  rw [hs, ← Real.sin_pi_div_six, Real.arcsin_sin]
  · linarith [Real.pi_pos]
  · linarith [Real.pi_pos]

theorem arcsin_sqrt_three_quarters :
    Real.arcsin (Real.sqrt (3/4)) = Real.pi / 3 := by
  have h3 : (0 : ℝ) ≤ 3 := by norm_num
  have hs : Real.sqrt (3/4 : ℝ) = Real.sqrt 3 / 2 := by
    rw [show (3/4 : ℝ) = (Real.sqrt 3 / 2) ^ 2 by
        rw [div_pow, Real.sq_sqrt h3]; norm_num,
      Real.sqrt_sq (by positivity)]
  rw [hs, ← Real.sin_pi_div_three, Real.arcsin_sin]
  · linarith [Real.pi_pos]
  · linarith [Real.pi_pos]

/-- At baseline 25% and absolute MDE 50 points the pooled standardized
difference is below 1 while Cohen's h is `pi / 3 > 1`. -/
theorem pooled_ne_cohens_h_concrete :
    pooled_effect_size (1/4) (1/2) ≠ cohens_h (1/4) (3/4) := by
  have hch : cohens_h ((1:ℝ)/4) (3/4) = Real.pi / 3 := by
    rw [cohens_h, arcsin_sqrt_three_quarters, arcsin_sqrt_quarter]; ring
  have h036 : Real.sqrt (0.36 : ℝ) = 0.6 := by
    rw [show (0.36 : ℝ) = 0.6 ^ 2 by norm_num, Real.sqrt_sq (by norm_num)]
  have hsq : (0.6 : ℝ) ≤ Real.sqrt (3/8) := by
    rw [← h036]
    exact Real.sqrt_le_sqrt (by norm_num)
  have hlt : pooled_effect_size ((1:ℝ)/4) (1/2) < 1 := by
    rw [pooled_effect_size,
      show (1/4 : ℝ) * (1 - 1/4) + (1/4 + 1/2) * (1 - (1/4 + 1/2)) = 3/8 by
        norm_num]
    have hpos : (0 : ℝ) < Real.sqrt (3/8) := lt_of_lt_of_le (by norm_num) hsq
    calc (1/2 : ℝ) / Real.sqrt (3/8) ≤ (1/2) / 0.6 := by gcongr
      _ < 1 := by norm_num
  rw [hch]
  have : (1 : ℝ) < Real.pi / 3 := by linarith [Real.pi_gt_three]
  exact ne_of_lt (lt_trans hlt this)

/-- C1 (amended): the two calculators under `calculators/` use Cohen's h of
`p1 = baseline` and `p2 = baseline + delta` as the proportion effect size,
but the `sample_size_calculator` variant uses the pooled-variance
standardized difference, which differs from Cohen's h (shown at baseline
25%, delta 50 points). -/
theorem c1_effect_size_by_variant :
    (∀ currentRate mde : ℝ, ab_test_effect_size currentRate mde =
      cohens_h currentRate (currentRate + mde)) ∧
    (∀ currentRate mde : ℝ, multiple_treatment_effect_size currentRate mde =
      cohens_h currentRate (currentRate + mde)) ∧
    pooled_effect_size (1/4) (1/2) ≠ cohens_h (1/4) (3/4) :=
  ⟨fun _ _ => rfl, fun _ _ => rfl, pooled_ne_cohens_h_concrete⟩

/-- C1 counterexample: the effect size used by the `sample_size_calculator`
variant at baseline 25% and absolute MDE 50 points is not Cohen's h of the
baseline and shifted rate. -/
theorem c1_counterexample :
    pooled_effect_size (1/4) (1/2) ≠ cohens_h (1/4) (3/4) :=
  pooled_ne_cohens_h_concrete

/-- The Weibull survival value of the source's `weibull` helper
(`data_processing.py`, lines 167-178 and 302-314):
`base_retention = exp(-(t / lambda_) ** gamma)`. -/
noncomputable def weibull_base (t lam gam : ℝ) : ℝ :=
  Real.exp (-((t / lam) ^ gam))

/-- The conservative adjustment of the same helper: `0.85 ** ((t - 20) / 10)`
for `t > 20`, and `1.0` otherwise. -/
noncomputable def weibull_adjustment (t : ℝ) : ℝ :=
  if 20 < t then (0.85 : ℝ) ^ ((t - 20) / 10) else 1

/-- `weibull(t, lambda_, gamma) = base_retention * adjustment`. -/
noncomputable def weibull (t lam gam : ℝ) : ℝ :=
  weibull_base t lam gam * weibull_adjustment t

/-- The retention percentage `create_retention_curve_data` stores for a
projected day (line 220): `projected_retention[day - 1] * 100` with
`projected_retention = weibull(all_days, lambda_, gamma)`. -/
noncomputable def projected_retention_rate (day : ℕ) (lam gam : ℝ) : ℝ :=
  weibull day lam gam * 100

/-- The projected percentage as the spec words it: `100 exp(-(t/lambda)^gamma)`
multiplied by the penalty `0.85^((t-20)/10)` only beyond day 20; written from
the spec to be compared with the source. -/
noncomputable def spec_projected_pct (day : ℕ) (lam gam : ℝ) : ℝ :=
  if day ≤ 20 then 100 * Real.exp (-(((day : ℝ) / lam) ^ gam))
  else 100 * Real.exp (-(((day : ℝ) / lam) ^ gam)) *
    (0.85 : ℝ) ^ (((day : ℝ) - 20) / 10)

/-- C6: for every fitted pair and every day 1..90 the projected retention
percentage of `create_retention_curve_data` equals
`100 exp(-(t/lambda)^gamma)` with the `0.85^((t-20)/10)` penalty applied
exactly when `t > 20`. -/
theorem c6_projection_formula (lam gam : ℝ) (day : ℕ) (h1 : 1 ≤ day)
    (h2 : day ≤ 90) :
    projected_retention_rate day lam gam = spec_projected_pct day lam gam := by
  rcases le_or_lt day 20 with h | h
  · have hr : ¬(20 : ℝ) < ((day : ℕ) : ℝ) := by exact_mod_cast not_lt.mpr h
    rw [projected_retention_rate, weibull, weibull_base, weibull_adjustment,
      spec_projected_pct, if_neg hr, if_pos h]
    ring
  · have hr : (20 : ℝ) < (day : ℕ) := by exact_mod_cast h
    rw [projected_retention_rate, weibull, weibull_base, weibull_adjustment,
      spec_projected_pct, if_pos hr, if_neg (not_le.mpr h)]
    ring

/-- C6 witness: the theorem instantiated at day 25 with the initial-guess
parameters. -/
theorem c6_witness :
    (1 ≤ 25 ∧ 25 ≤ 90) ∧
    projected_retention_rate 25 10 (6/5) = spec_projected_pct 25 10 (6/5) :=
  ⟨⟨by norm_num, by norm_num⟩,
    c6_projection_formula 10 (6/5) 25 (by norm_num) (by norm_num)⟩

/-- A point of the retention plot: the dict `create_retention_curve_data`
appends (`day`, `retention_rate`, `type`; the last is a Lean keyword, hence
`typeTag`). -/
structure PlotRow where
  day : ℕ
  retentionRate : ℚ
  typeTag : String
deriving DecidableEq

/-- Python list/array indexing `xs[i]`: raises `IndexError` beyond the end. -/
def pyindex (xs : List ℚ) (i : ℕ) : Except String ℚ :=
  match xs.get? i with
  | some v => Except.ok v
  | none => Except.error "IndexError"

/-- The `scipy.optimize.curve_fit` call (external library): mismatched x/y
lengths raise before any optimization; a non-convergent optimization raises
`RuntimeError`.  The optimizer itself is abstracted as `fit`, a function of
the y-data (the x-data, initial guess, bounds and weights are fixed at the
call sites). -/
def curve_fit_call (fit : List ℚ → Option (ℚ × ℚ)) (xdata : List ℕ)
    (ydata : List ℚ) : Except String (ℚ × ℚ) :=
  if xdata.length ≠ ydata.length then Except.error "ValueError"
  else
    match fit ydata with
    | some params => Except.ok params
    | none => Except.error "RuntimeError"

/-- Embedding of `create_retention_curve_data` (`data_processing.py`, lines
145-238).  The input is the single row's `*_retention_pct` columns as
day-sorted (day, percent) pairs (the source discovers and day-sorts the
column names); an empty frame and a frame with no retention columns both
yield the empty list, as in the source's two early returns.  `wEval day
params` stands for the array entry `weibull(all_days, *params)[day - 1]`.
The `try` body is the `Except` block; its `except Exception` handler rebuilds
the actual rows by indexing `actual_retention_values[i]` for `i = 0..19`, so
an `IndexError` raised there escapes the function. -/
def create_retention_curve_data (fit : List ℚ → Option (ℚ × ℚ))
    (wEval : ℕ → ℚ × ℚ → ℚ) (cols : List (ℕ × ℚ)) :
    Except String (List PlotRow) :=
  if cols.isEmpty then Except.ok []
  else
    let actualValues := cols.map Prod.snd
    let retentionFraction := actualValues.map (fun v => v / 100)
    let days120 := List.range' 1 20
    let tryBody : Except String (List PlotRow) := do
      let params ← curve_fit_call fit days120 retentionFraction
      let actualRows ← days120.enum.mapM (fun p => do
        let v ← pyindex actualValues p.1
        pure (⟨p.2, v, "Actual"⟩ : PlotRow))
      let projectedRows := (List.range' 1 90).map
        (fun day => (⟨day, wEval day params * 100, "Projected"⟩ : PlotRow))
      pure (actualRows ++ projectedRows)
    match tryBody with
    | .ok rows => .ok rows
    | .error _ =>
      days120.enum.mapM (fun p => do
        let v ← pyindex actualValues p.1
        pure (⟨p.2, v, "Actual"⟩ : PlotRow))

/-- C7: evaluating `create_retention_curve_data` on a retention row with only
the day 1..10 columns present (fewer than 15 of the 20 values): the fit call
fails on the length mismatch, and the fallback handler itself raises an
`IndexError` that escapes, instead of returning the actual points. -/
theorem c7_missing_values_escape :
    create_retention_curve_data (fun _ => none) (fun _ _ => 0)
      ((List.range' 1 10).map (fun d => (d, (50 : ℚ)))) =
      Except.error "IndexError" := by
  rfl

/-- A row of the segmentation table as `project_90_day_ltv_simple` reads it:
`segment`, `num_user`, `ltv_20_day`, and the optional
`avg_ltv_20_day_per_user` column (absent when the upstream table lacked the
`revenue_day_20` per-day average). -/
structure SegRow where
  segment : String
  numUser : ℚ
  ltv20Day : ℚ
  avgLtv20DayPerUser : Option ℚ
deriving DecidableEq

/-- The result dict appended per segment by `project_90_day_ltv_simple`. -/
structure LtvRow where
  segment : String
  numUser : ℚ
  ltv20Day : ℚ
  avgDailyRevenuePerUser : ℚ
  avgLtv20DayPerUser : ℚ
  projectedAvg90DayPerUser : ℚ
deriving DecidableEq

/-- Lines 291-296: the `day_1_retention_pct`..`day_20_retention_pct` values
whose columns are present, in day order (`if col in retention_df.columns`). -/
def collect_retention_rates (rdf : List (ℕ × ℚ)) : List ℚ :=
  (List.range' 1 20).filterMap (fun i => rdf.lookup i)

/-- Lines 276-281: `ltv_20_day / (num_users * 20)`, `0.00` when there are no
users. -/
def avg_daily_revenue (row : SegRow) : ℚ :=
  if 0 < row.numUser then row.ltv20Day / (row.numUser * 20) else 0

/-- Lines 254-258: `row.get("avg_ltv_20_day_per_user", ...)` with the
computed fallback. -/
def avg_ltv_20_default (row : SegRow) : ℚ :=
  row.avgLtv20DayPerUser.getD
    (if 0 < row.numUser then row.ltv20Day / row.numUser else 0)

/-- Embedding of the per-row body of `project_90_day_ltv_simple`
(`data_processing.py`, lines 249-363).  `fit` abstracts the inner
`curve_fit` call (`none` = its `ValueError`/`RuntimeError` branch, which sets
`projected_90 = None`); `wEval day params` the scalar
`weibull(day, lambda_param, k)`.  The retention frame is `none` for
`retention_df=None`; otherwise the list holds the present
`day_i_retention_pct` columns of its single row, `[]` for an empty frame.
The second component records whether the row's control flow reached the
`curve_fit` call. -/
def project_row (fit : List ℚ → Option (ℚ × ℚ)) (wEval : ℕ → ℚ × ℚ → ℚ)
    (retentionDf : Option (List (ℕ × ℚ))) (row : SegRow) : LtvRow × Bool :=
  let avgLtv20 := avg_ltv_20_default row
  if row.segment = "Non-Payer" then
    (⟨row.segment, row.numUser, row.ltv20Day, 0, avgLtv20, 0⟩, false)
  else
    let avgDailyRevenue := avg_daily_revenue row
    let step : Option ℚ × Bool :=
      match retentionDf with
      | some rdf =>
        if rdf ≠ [] ∧ 0 < avgDailyRevenue then
          let retentionRates := collect_retention_rates rdf
          if 15 ≤ retentionRates.length then
            let retentionVals := (retentionRates.take 20).map (fun v => v / 100)
            if 0 < retentionVals.getLastD 0 then
              match fit retentionVals with
              | some params =>
                (some ((List.range' 21 70).foldl
                  (fun acc day => acc + avgDailyRevenue * wEval day params)
                  avgLtv20), true)
              | none => (none, true)
            else (none, false)
          else (none, false)
        else (none, false)
      | none => (none, false)
    let projected90 := step.1.getD avgLtv20
    (⟨row.segment, row.numUser, row.ltv20Day, avgDailyRevenue, avgLtv20,
      projected90⟩, step.2)

/-- C8: a Non-Payer row short-circuits: average daily revenue and projected
90-day value are written as 0.00 and the curve fit is never reached,
whatever the retention data and optimizer. -/
theorem c8_nonpayer_short_circuit (fit : List ℚ → Option (ℚ × ℚ))
    (wEval : ℕ → ℚ × ℚ → ℚ) (retentionDf : Option (List (ℕ × ℚ)))
    (row : SegRow) (h : row.segment = "Non-Payer") :
    (project_row fit wEval retentionDf row).1.avgDailyRevenuePerUser = 0 ∧
    (project_row fit wEval retentionDf row).1.projectedAvg90DayPerUser = 0 ∧
    (project_row fit wEval retentionDf row).2 = false := by
  simp [project_row, h]

/-- C8 witness: the spec's concrete scenario 5 (`Non-Payer`, 500 users, zero
20-day revenue) with a retention fit available. -/
theorem c8_witness :
    (SegRow.mk "Non-Payer" 500 0 none).segment = "Non-Payer" ∧
    ((project_row (fun _ => some (10, 6/5)) (fun _ _ => 1)
        (some [(20, 50)]) ⟨"Non-Payer", 500, 0, none⟩).1.avgDailyRevenuePerUser
        = 0 ∧
      (project_row (fun _ => some (10, 6/5)) (fun _ _ => 1)
        (some [(20, 50)]) ⟨"Non-Payer", 500, 0, none⟩).1.projectedAvg90DayPerUser
        = 0 ∧
      (project_row (fun _ => some (10, 6/5)) (fun _ _ => 1)
        (some [(20, 50)]) ⟨"Non-Payer", 500, 0, none⟩).2 = false) :=
  ⟨rfl, c8_nonpayer_short_circuit (fun _ => some (10, 6/5)) (fun _ _ => 1)
    (some [(20, 50)]) ⟨"Non-Payer", 500, 0, none⟩ rfl⟩

/-- The guard analysis of `project_row` for a paying row, shared by the C10
statements. -/
theorem project_row_reaches_fit_iff (fit : List ℚ → Option (ℚ × ℚ))
    (wEval : ℕ → ℚ × ℚ → ℚ) (retentionDf : Option (List (ℕ × ℚ)))
    (row : SegRow) (h : row.segment ≠ "Non-Payer") :
    ((project_row fit wEval retentionDf row).2 = true ↔
      ∃ rdf, retentionDf = some rdf ∧ rdf ≠ [] ∧ 0 < avg_daily_revenue row ∧
        15 ≤ (collect_retention_rates rdf).length ∧
        0 < (((collect_retention_rates rdf).take 20).map
          (fun v => v / 100)).getLastD 0) ∧
    ((project_row fit wEval retentionDf row).2 = false →
      (project_row fit wEval retentionDf row).1.projectedAvg90DayPerUser =
        (project_row fit wEval retentionDf row).1.avgLtv20DayPerUser) := by
  cases retentionDf with
  | none => simp [project_row, h]
  | some rdf =>
    simp only [project_row, if_neg h]
    by_cases h1 : rdf ≠ [] ∧ 0 < avg_daily_revenue row
    · rw [if_pos h1]
      by_cases h2 : 15 ≤ (collect_retention_rates rdf).length
      · rw [if_pos h2]
        by_cases h3 : 0 < (((collect_retention_rates rdf).take 20).map
            (fun v => v / 100)).getLastD 0
        · rw [if_pos h3]
          cases hf : fit (((collect_retention_rates rdf).take 20).map
              (fun v => v / 100)) with
          | none =>
              exact ⟨iff_of_true rfl ⟨rdf, rfl, h1.1, h1.2, h2, h3⟩, by simp⟩
          | some params =>
              exact ⟨iff_of_true rfl ⟨rdf, rfl, h1.1, h1.2, h2, h3⟩, by simp⟩
        · rw [if_neg h3]
          refine ⟨iff_of_false (by simp) ?_, by simp⟩
          rintro ⟨rdf_1, heq, -, -, -, hlast⟩
          cases heq
          exact h3 hlast
      · rw [if_neg h2]
        refine ⟨iff_of_false (by simp) ?_, by simp⟩
        rintro ⟨rdf_1, heq, -, -, hlen, -⟩
        cases heq
        exact h2 hlen
    · rw [if_neg h1]
      refine ⟨iff_of_false (by simp) ?_, by simp⟩
      rintro ⟨rdf_1, heq, hne, hpos, -, -⟩
      cases heq
      exact h1 ⟨hne, hpos⟩

/-- C10 (amended): for a paying row the curve fit is reached exactly when the
retention frame is supplied and non-empty, the average daily revenue is
positive, at least 15 of the day 1..20 retention columns are present, and the
last collected value (the day-20 value only when all 20 columns are present)
is positive; whenever the fit is not reached the projected value silently
equals the 20-day average (flat carry-forward). -/
theorem c10_fit_guards (fit : List ℚ → Option (ℚ × ℚ))
    (wEval : ℕ → ℚ × ℚ → ℚ) (retentionDf : Option (List (ℕ × ℚ)))
    (row : SegRow) (h : row.segment ≠ "Non-Payer") :
    ((project_row fit wEval retentionDf row).2 = true ↔
      ∃ rdf, retentionDf = some rdf ∧ rdf ≠ [] ∧ 0 < avg_daily_revenue row ∧
        15 ≤ (collect_retention_rates rdf).length ∧
        0 < (((collect_retention_rates rdf).take 20).map
          (fun v => v / 100)).getLastD 0) ∧
    ((project_row fit wEval retentionDf row).2 = false →
      (project_row fit wEval retentionDf row).1.projectedAvg90DayPerUser =
        (project_row fit wEval retentionDf row).1.avgLtv20DayPerUser) :=
  project_row_reaches_fit_iff fit wEval retentionDf row h

/-- C10 witness: the amended statement instantiated for a paying segment with
no retention frame supplied. -/
theorem c10_witness :
    (SegRow.mk "Low Spender" 100 2000 none).segment ≠ "Non-Payer" ∧
    (((project_row (fun _ => none) (fun _ _ => 0) none
        ⟨"Low Spender", 100, 2000, none⟩).2 = true ↔
      ∃ rdf, (none : Option (List (ℕ × ℚ))) = some rdf ∧ rdf ≠ [] ∧
        0 < avg_daily_revenue ⟨"Low Spender", 100, 2000, none⟩ ∧
        15 ≤ (collect_retention_rates rdf).length ∧
        0 < (((collect_retention_rates rdf).take 20).map
          (fun v => v / 100)).getLastD 0) ∧
    ((project_row (fun _ => none) (fun _ _ => 0) none
        ⟨"Low Spender", 100, 2000, none⟩).2 = false →
      (project_row (fun _ => none) (fun _ _ => 0) none
        ⟨"Low Spender", 100, 2000, none⟩).1.projectedAvg90DayPerUser =
        (project_row (fun _ => none) (fun _ _ => 0) none
          ⟨"Low Spender", 100, 2000, none⟩).1.avgLtv20DayPerUser)) :=
  ⟨by simp, c10_fit_guards (fun _ => none) (fun _ _ => 0) none
    ⟨"Low Spender", 100, 2000, none⟩ (by simp)⟩

/-- For a paying row the displayed average daily revenue is
`avg_daily_revenue`. -/
theorem project_row_avg_daily (fit : List ℚ → Option (ℚ × ℚ))
    (wEval : ℕ → ℚ × ℚ → ℚ) (retentionDf : Option (List (ℕ × ℚ)))
    (row : SegRow) (h : row.segment ≠ "Non-Payer") :
    (project_row fit wEval retentionDf row).1.avgDailyRevenuePerUser =
      avg_daily_revenue row := by
  simp [project_row, h]

/-- C10 counterexample: with exactly the day 1..15 retention columns present
(all positive) and positive daily revenue, the fit is attempted although no
day-20 retention observation exists at all — the gate is the last collected
value, not the day-20 value the claim names. -/
theorem c10_counterexample :
    (project_row (fun _ => none) (fun _ _ => 0)
        (some [(1, 50), (2, 50), (3, 50), (4, 50), (5, 50), (6, 50), (7, 50),
          (8, 50), (9, 50), (10, 50), (11, 50), (12, 50), (13, 50), (14, 50),
          (15, 50)]) ⟨"Low Spender", 100, 2000, none⟩).2 = true ∧
    ([(1, (50 : ℚ)), (2, 50), (3, 50), (4, 50), (5, 50), (6, 50), (7, 50),
      (8, 50), (9, 50), (10, 50), (11, 50), (12, 50), (13, 50), (14, 50),
      (15, 50)].lookup 20 = none) ∧
    (project_row (fun _ => none) (fun _ _ => 0)
        (some [(1, 50), (2, 50), (3, 50), (4, 50), (5, 50), (6, 50), (7, 50),
          (8, 50), (9, 50), (10, 50), (11, 50), (12, 50), (13, 50), (14, 50),
          (15, 50)]) ⟨"Low Spender", 100, 2000, none⟩).1.avgDailyRevenuePerUser
      = 1 := by
  have hseg : (SegRow.mk "Low Spender" 100 2000 none).segment ≠ "Non-Payer" := by
    decide
  have hrates : collect_retention_rates [(1, 50), (2, 50), (3, 50), (4, 50),
      (5, 50), (6, 50), (7, 50), (8, 50), (9, 50), (10, 50), (11, 50),
      (12, 50), (13, 50), (14, 50), (15, 50)] =
      [(50 : ℚ), 50, 50, 50, 50, 50, 50, 50, 50, 50, 50, 50, 50, 50, 50] :=
    rfl
  refine ⟨?_, rfl, ?_⟩
  · refine (project_row_reaches_fit_iff _ _ _ _ hseg).1.mpr
      ⟨_, rfl, by simp, ?_, ?_, ?_⟩
    · norm_num [avg_daily_revenue]
    · rw [hrates]
      norm_num
    · rw [hrates]
      norm_num [List.getLastD_cons]
  · rw [project_row_avg_daily _ _ _ _ hseg]
    norm_num [avg_daily_revenue]

/-- A pandas frame as the segmentation code sees it: named columns and, per
user row, each column's float value (meaningful only on the frame's
columns). -/
structure PDFrame where
  columns : List String
  rows : List (String → ℚ)

/-- The linear-interpolation quantile of `pandas.Series.quantile` (external
library): on the sorted values `v[0..n-1]`, position `h = (n-1) q`,
interpolating between the neighbouring order statistics. -/
def pandas_quantile (xs : List ℚ) (q : ℚ) : ℚ :=
  let sorted := xs.mergeSort (fun a b => decide (a ≤ b))
  let n := sorted.length
  if n = 0 then 0
  else
    let h : ℚ := ((n : ℚ) - 1) * q
    let lo : ℕ := ⌊h⌋.toNat
    let vlo := sorted.getD lo 0
    let vhi := sorted.getD (min (lo + 1) (n - 1)) 0
    vlo + (h - (lo : ℚ)) * (vhi - vlo)

/-- The fixed segment labels (lines 26-34). -/
def segment_labels : List String :=
  ["Non-Payer", "Low Spender", "Medium Spender", "High Spender", "Premium",
    "VIP", "Whale"]

/-- The fixed quantile grid (line 23). -/
def segmentation_quantiles : List ℚ := [0, 1/4, 1/2, 3/4, 9/10, 19/20, 1]

/-- `assign_segment` (lines 37-43): zero revenue is "Non-Payer"; otherwise
the first threshold from index 1 on that the revenue does not exceed gives
the label, and values above every threshold get the last label. -/
def assign_segment (revenueThresholds : List ℚ) (revenue : ℚ) : String :=
  if revenue = 0 then "Non-Payer"
  else
    match (List.range' 1 (revenueThresholds.length - 1)).find?
        (fun i => decide (revenue ≤ revenueThresholds.getD i 0)) with
    | some i => segment_labels.getD i ""
    | none => segment_labels.getLastD ""

/-- The revenue columns of a frame (lines 9-10).  The source also sorts them
by day number, but this function uses the list only for membership tests
(`if col_name in revenue_cols`), so the order carries no meaning here. -/
def revenue_columns (df : PDFrame) : List String :=
  df.columns.filter (fun c => c.startsWith "revenue_day_")

/-- A row of the segmentation table built by `create_revenue_segmentation`:
segment name, user count, segment 20-day revenue, the per-day `avg_ltv_i`
averages for the days whose column exists (day 20 down to 1), and the two
percentage fields. -/
structure SegTableRow where
  segment : String
  numUser : ℕ
  ltv20Day : ℚ
  avgLtvPerUserByDay : List (ℕ × ℚ)
  pctUser : ℚ
  pctLtv20DayPerSegment : ℚ

/-- Embedding of `create_revenue_segmentation` (`data_processing.py`, lines
5-77).  The unconditional column access
`df_analysis["total_revenue_day_20"] = df_analysis["revenue_day_20"]`
(line 14) raises `KeyError` when the frame lacks `revenue_day_20`; every
later step is total: the per-day averages guard on `col_name in
revenue_cols` (line 66), empty segments are skipped, and both percentage
denominators are guarded (`total_users` positive because paying users
exist, `total_revenue > 0` tested explicitly). -/
def create_revenue_segmentation (df : PDFrame) :
    Except String (List SegTableRow) :=
  let revenueCols := revenue_columns df
  if "revenue_day_20" ∈ df.columns then
    let totalRevPerUser := df.rows.map (fun r => r "revenue_day_20")
    let payingUsers := totalRevPerUser.filter (fun v => decide (0 < v))
    if payingUsers.length = 0 then Except.ok []
    else
      let revenueThresholds :=
        segmentation_quantiles.map (pandas_quantile payingUsers)
      let withSegment := df.rows.map
        (fun r => (r, assign_segment revenueThresholds (r "revenue_day_20")))
      let totalUsers := df.rows.length
      let totalRevenue := totalRevPerUser.sum
      Except.ok (segment_labels.filterMap (fun seg =>
        let segmentData :=
          (withSegment.filter (fun p => decide (p.2 = seg))).map Prod.fst
        if segmentData.length = 0 then none
        else
          some
            { segment := seg
              numUser := segmentData.length
              ltv20Day := (segmentData.map (fun r => r "revenue_day_20")).sum
              avgLtvPerUserByDay :=
                (List.range' 1 20).reverse.filterMap (fun i =>
                  if ("revenue_day_" ++ toString i) ∈ revenueCols then
                    some (i,
                      (segmentData.map
                        (fun r => r ("revenue_day_" ++ toString i))).sum /
                        (segmentData.length : ℚ))
                  else none)
              pctUser := ((segmentData.length : ℚ) / (totalUsers : ℚ)) * 100
              pctLtv20DayPerSegment :=
                if 0 < totalRevenue then
                  ((segmentData.map (fun r => r "revenue_day_20")).sum /
                    totalRevenue) * 100
                else 0 }))
  else Except.error "KeyError"

/-- The length of a `filterMap` is the number of elements mapped to
`some`. -/
theorem length_filterMap_eq_length_filter {α β : Type} (f : α → Option β)
    (l : List α) :
    (l.filterMap f).length = (l.filter (fun i => (f i).isSome)).length := by
  induction l with
  | nil => rfl
  | cons a l ih =>
      cases h : f a <;>
        simp [List.filterMap_cons, h, List.filter_cons, ih]

/-- C9 (amended): the segmentation fails exactly when `revenue_day_20` is
missing (every other missing `revenue_day_N` column is skipped by the
membership guard, not replaced by zero), and the retention lookup of
`project_90_day_ltv_simple` collects exactly the values of the present
`day_N_retention_pct` columns, skipping absent ones. -/
theorem c9_missing_columns (df : PDFrame) :
    ((create_revenue_segmentation df).isOk = true ↔
      "revenue_day_20" ∈ df.columns) ∧
    (∀ rdf : List (ℕ × ℚ), (collect_retention_rates rdf).length =
      ((List.range' 1 20).filter (fun i => (rdf.lookup i).isSome)).length) := by
  constructor
  · by_cases hm : "revenue_day_20" ∈ df.columns
    · simp only [create_revenue_segmentation, if_pos hm]
      split_ifs <;> simp [Except.isOk, Except.toBool, hm]
    · simp only [create_revenue_segmentation, if_neg hm]
      simp [Except.isOk, Except.toBool, hm]
  · intro rdf
    exact length_filterMap_eq_length_filter (fun i => rdf.lookup i) _

/-- C9 counterexample: a frame with the day 1..19 revenue columns but no
`revenue_day_20` makes `create_revenue_segmentation` raise `KeyError` instead
of tolerating the missing column. -/
theorem c9_counterexample :
    create_revenue_segmentation
      ⟨["revenue_day_1", "revenue_day_19"], [fun _ => 5]⟩ =
      Except.error "KeyError" := by
  rfl

end Spec2Proof
